import Mathlib

/-!
Shallow embedding of the game-state engine of `src/game.py` (The Cursed
Forest).  The engine is the function `update_game_state` (lines 105-162)
acting on the session dictionary `game_state`; the driver `main`
(lines 181-296) guards when that function may be called.  Randomness
(the weighted good/bad choice and `random.random()`) is passed in
explicitly as a `Draw`.
-/

set_option autoImplicit false

namespace CursedForest

/-- Difficulty modes selectable in `main` (lines 230-238).  The unset
state (`mode = None` in Python) is modelled as `Option Mode` with
`none`. -/
inductive Mode
  | Easy
  | Hard
  | Nightmare
deriving DecidableEq, Repr

/-- Result of `random.choices(['good', 'bad'], ...)` (lines 125-134). -/
inductive Outcome
  | good
  | bad
deriving DecidableEq, Repr

/-- The `st.session_state.game_state` dictionary (lines 39-46).  Python
integers are unbounded, hence `Int`. -/
structure GameState where
  health : Int
  food : Int
  choices_made : Int
  success : Bool
  mode : Option Mode
  ended : Bool
deriving DecidableEq, Repr

/-- The random draws consumed by one `update_game_state` call: the
weighted good/bad pick (line 125/128/131) and the `random.random()`
value compared against `food_chance` (line 145). -/
structure Draw where
  outcome : Outcome
  foodRoll : ℚ

/-- Checks whether `needle` is a leading segment of `hay`, on
character lists. -/
def prefixMatch : List Char → List Char → Bool
  | [], _ => true
  | _ :: _, [] => false
  | a :: as, b :: bs => a == b && prefixMatch as bs

/-- Python `needle in hay` substring test, on character lists. -/
def containsSub (needle : List Char) : List Char → Bool
  | [] => needle.isEmpty
  | c :: cs => prefixMatch needle (c :: cs) || containsSub needle cs

/-- Python `phrase in text.lower()` as used at lines 139, 141, 150,
152: the text is lowercased, the phrase literal is already lower
case. -/
def containsLower (phrase text : String) : Bool :=
  containsSub phrase.data (text.data.map Char.toLower)

/-- Lines 107-110: regeneration per food unit is 0 in Nightmare mode
and 10 otherwise. -/
def food_restore_health (mode : Option Mode) : Int :=
  if mode = some Mode.Nightmare then 0 else 10

/-- Lines 112-121: consume one food unit (regenerating health, clamped
at 100, and only written back when it actually increased), or lose 10
health by starvation when no food is left. -/
def consume_food (s : GameState) : GameState :=
  if 0 < s.food then
    let s1 := { s with food := s.food - 1 }
    let new_health := min 100 (s1.health + food_restore_health s.mode)
    if s1.health < new_health then { s1 with health := new_health } else s1
  else
    { s with health := s.health - 10 }

/-- The literal `0.8` of line 126, as the exact rational 4/5 (given in
normal form so that the kernel can evaluate comparisons). -/
def food_chance_easy : ℚ := ⟨4, 5, by norm_num, by norm_num⟩

/-- The literal `0.4` of line 129, as the exact rational 2/5. -/
def food_chance_hard : ℚ := ⟨2, 5, by norm_num, by norm_num⟩

/-- The literal `0.2` of line 132, as the exact rational 1/5. -/
def food_chance_nightmare : ℚ := ⟨1, 5, by norm_num, by norm_num⟩

/-- Lines 123-135: the mode determines the weighted outcome draw and
the food-discovery probability.  With no mode set the outcome is
forced to good and the food chance is 0. -/
def outcome_and_chance (mode : Option Mode) (ω : Outcome) : Outcome × ℚ :=
  if mode = some Mode.Easy then (ω, food_chance_easy)
  else if mode = some Mode.Hard then (ω, food_chance_hard)
  else if mode = some Mode.Nightmare then (ω, food_chance_nightmare)
  else (Outcome.good, 0)

/-- Lines 137-153: apply the drawn outcome to the state, keyed on
phrase matches in the (lowercased) response text. -/
def apply_outcome (s : GameState) (text : String) (outcome : Outcome)
    (food_chance roll : ℚ) : GameState :=
  if outcome = Outcome.good then
    let s1 :=
      if containsLower "move closer to success" text then
        { s with success := true }
      else if s.mode = some Mode.Easy ∧ containsLower "restore health" text then
        { s with health := min 100 (s.health + 20) }
      else s
    if roll < food_chance then { s1 with food := s1.food + 3 } else s1
  else
    if containsLower "lose health" text then
      { s with health := s.health - 10 }
    else if containsLower "fatal event" text ∧ s.health ≤ 10 then
      { s with health := 0 }
    else s

/-- Lines 155-159: the game ends when success is set or health dropped
to 0 or below.  `ended` is never reset here. -/
def check_end (s : GameState) : GameState :=
  if s.success then { s with ended := true }
  else if s.health ≤ 0 then { s with ended := true }
  else s

/-- Lines 105-162, `update_game_state`: consume food, draw the
outcome, apply it, check for the end of the game, and increment the
choice counter unconditionally. -/
def update_game_state (s : GameState) (text : String) (d : Draw) : GameState :=
  let s1 := consume_food s
  let oc := outcome_and_chance s1.mode d.outcome
  let s2 := apply_outcome s1 text oc.1 oc.2 d.foodRoll
  let s3 := check_end s2
  { s3 with choices_made := s3.choices_made + 1 }

/-- Lines 39-46: the fresh session state. -/
def initial_game_state : GameState :=
  { health := 100, food := 5, choices_made := 0, success := false,
    mode := none, ended := false }

/-- Lines 230-238: the mode buttons, shown only while `mode` is
`None`, write the chosen mode into the state. -/
def set_mode (s : GameState) (m : Mode) : GameState :=
  { s with mode := some m }

/-- One rerun of `main` (lines 181-296) from the engine's point of
view: with no mode set, `main` returns at line 239 before any turn;
with `ended` set, it returns at line 271 before reading input; only
otherwise does it call `update_game_state` (line 287). -/
def main_step (s : GameState) (text : String) (d : Draw) : GameState :=
  if s.mode = none then s
  else if s.ended = true then s
  else update_game_state s text d

/-- A fixed sample value for the `random.random()` draw, used on
concrete runs. -/
def roll_half : ℚ := ⟨1, 2, by norm_num, by norm_num⟩

/-- Sanity: the three food-chance constants are the decimals of lines
126, 129 and 132. -/
theorem food_chance_values :
    food_chance_easy = 0.8 ∧ food_chance_hard = 0.4 ∧
      food_chance_nightmare = 0.2 ∧ roll_half = 0.5 := by
  refine ⟨?_, ?_, ?_, ?_⟩
  · rw [food_chance_easy, Rat.mk'_eq_divInt]; norm_num [Rat.divInt_eq_div]
  · rw [food_chance_hard, Rat.mk'_eq_divInt]; norm_num [Rat.divInt_eq_div]
  · rw [food_chance_nightmare, Rat.mk'_eq_divInt]; norm_num [Rat.divInt_eq_div]
  · rw [roll_half, Rat.mk'_eq_divInt]; norm_num [Rat.divInt_eq_div]

/-- The states the driver can put the session in: the fresh state, a
mode choice while the mode is unset, and a turn while the mode is set
and the game has not ended, with a food roll from `random.random()`
(so in `[0, 1)`). -/
inductive Reachable : GameState → Prop where
  | init : Reachable initial_game_state
  | mode_choice (s : GameState) (m : Mode) :
      Reachable s → s.mode = none → Reachable (set_mode s m)
  | turn (s : GameState) (text : String) (d : Draw) :
      Reachable s → s.mode ≠ none → s.ended = false →
      0 ≤ d.foodRoll → d.foodRoll < 1 → Reachable (update_game_state s text d)

/-! Field-preservation lemmas for the three blocks of
`update_game_state`. -/

theorem consume_food_mode (s : GameState) : (consume_food s).mode = s.mode := by
  simp only [consume_food]; split_ifs <;> rfl

theorem consume_food_choices (s : GameState) :
    (consume_food s).choices_made = s.choices_made := by
  simp only [consume_food]; split_ifs <;> rfl

theorem consume_food_success (s : GameState) :
    (consume_food s).success = s.success := by
  simp only [consume_food]; split_ifs <;> rfl

theorem consume_food_ended (s : GameState) : (consume_food s).ended = s.ended := by
  simp only [consume_food]; split_ifs <;> rfl

theorem apply_outcome_mode (s : GameState) (text : String) (outcome : Outcome)
    (food_chance roll : ℚ) :
    (apply_outcome s text outcome food_chance roll).mode = s.mode := by
  simp only [apply_outcome]; split_ifs <;> rfl

theorem apply_outcome_choices (s : GameState) (text : String) (outcome : Outcome)
    (food_chance roll : ℚ) :
    (apply_outcome s text outcome food_chance roll).choices_made = s.choices_made := by
  simp only [apply_outcome]; split_ifs <;> rfl

theorem apply_outcome_ended (s : GameState) (text : String) (outcome : Outcome)
    (food_chance roll : ℚ) :
    (apply_outcome s text outcome food_chance roll).ended = s.ended := by
  simp only [apply_outcome]; split_ifs <;> rfl

theorem check_end_choices (s : GameState) :
    (check_end s).choices_made = s.choices_made := by
  simp only [check_end]; split_ifs <;> rfl

theorem check_end_health (s : GameState) : (check_end s).health = s.health := by
  simp only [check_end]; split_ifs <;> rfl

theorem check_end_food (s : GameState) : (check_end s).food = s.food := by
  simp only [check_end]; split_ifs <;> rfl

theorem check_end_success (s : GameState) : (check_end s).success = s.success := by
  simp only [check_end]; split_ifs <;> rfl

theorem check_end_ended (s : GameState) :
    (check_end s).ended = (s.success || decide (s.health ≤ 0) || s.ended) := by
  simp only [check_end]; split_ifs <;> simp_all

theorem update_game_state_choices (s : GameState) (text : String) (d : Draw) :
    (update_game_state s text d).choices_made = s.choices_made + 1 := by
  simp only [update_game_state]
  rw [check_end_choices, apply_outcome_choices, consume_food_choices]

theorem outcome_and_chance_fst_good (mode : Option Mode) :
    (outcome_and_chance mode Outcome.good).1 = Outcome.good := by
  simp only [outcome_and_chance]; split_ifs <;> rfl

/-- C8: every `update_game_state` call increments `choices_made` by
exactly 1, unconditionally, including on the turn that ends the
game. -/
theorem c8_choices_made_increments (s : GameState) (text : String) (d : Draw) :
    (update_game_state s text d).choices_made = s.choices_made + 1 :=
  update_game_state_choices s text d

/-- C2: once `ended` is true, a further turn of the driver loop leaves
the whole state (in particular `health`, `food` and `success`)
unchanged: `main` returns before calling `update_game_state`. -/
theorem c2_ended_is_noop (s : GameState) (text : String) (d : Draw)
    (h : s.ended = true) : main_step s text d = s := by
  simp [main_step, h]

/-- C2 witness: a concrete ended state is left untouched. -/
theorem c2_ended_is_noop_witness :
    main_step (⟨0, 0, 3, false, some Mode.Hard, true⟩ : GameState) "run"
      ⟨Outcome.bad, roll_half⟩ = (⟨0, 0, 3, false, some Mode.Hard, true⟩ : GameState) :=
  c2_ended_is_noop _ "run" _ rfl

/-- C5: starting from a non-ended state, the updated state has
`ended = true` exactly when it has `success = true` or
`health ≤ 0`; and an already-ended state keeps `ended = true` even
under a direct `update_game_state` call. -/
theorem c5_ended_iff_success_or_dead (s : GameState) (text : String) (d : Draw) :
    (s.ended = false →
      ((update_game_state s text d).ended = true ↔
        ((update_game_state s text d).success = true ∨
          (update_game_state s text d).health ≤ 0))) ∧
    (s.ended = true → (update_game_state s text d).ended = true) := by
  simp only [update_game_state]
  rw [check_end_ended, check_end_success, check_end_health, apply_outcome_ended,
    consume_food_ended]
  constructor
  · intro h
    simp [h]
  · intro h
    simp [h]

/-- C5 witness. -/
theorem c5_ended_iff_success_or_dead_witness :
    ((initial_game_state.ended = false →
      ((update_game_state initial_game_state "rest" ⟨Outcome.bad, roll_half⟩).ended = true ↔
        ((update_game_state initial_game_state "rest" ⟨Outcome.bad, roll_half⟩).success = true ∨
          (update_game_state initial_game_state "rest" ⟨Outcome.bad, roll_half⟩).health ≤ 0))) ∧
    (initial_game_state.ended = true →
      (update_game_state initial_game_state "rest" ⟨Outcome.bad, roll_half⟩).ended = true)) :=
  c5_ended_iff_success_or_dead initial_game_state "rest" ⟨Outcome.bad, roll_half⟩

theorem consume_food_starve (s : GameState) (h : s.food ≤ 0) :
    consume_food s = { s with health := s.health - 10 } := by
  simp only [consume_food]
  rw [if_neg (by omega)]

theorem apply_outcome_good_success_phrase (s : GameState) (text : String)
    (fc roll : ℚ) (hm : containsLower "move closer to success" text = true) :
    (apply_outcome s text Outcome.good fc roll).success = true ∧
    (apply_outcome s text Outcome.good fc roll).health = s.health := by
  simp only [apply_outcome, hm]
  split_ifs <;> simp_all

/-- C6: when the starvation branch drives health to 0 or below in the
same turn in which a Good outcome matches the success phrase, the
turn still produces `success = true` and `ended = true` (success
overrides the same-turn fatal starvation). -/
theorem c6_success_overrides_starvation (s : GameState) (text : String) (d : Draw)
    (hfood : s.food ≤ 0) (hhp : s.health ≤ 10)
    (hmatch : containsLower "move closer to success" text = true)
    (hout : d.outcome = Outcome.good) :
    (update_game_state s text d).success = true ∧
    (update_game_state s text d).ended = true ∧
    (update_game_state s text d).health ≤ 0 := by
  have hfst : (outcome_and_chance (consume_food s).mode d.outcome).1 = Outcome.good := by
    rw [hout]; exact outcome_and_chance_fst_good _
  simp only [update_game_state, hfst]
  obtain ⟨hsucc, hhp2⟩ := apply_outcome_good_success_phrase (consume_food s) text
    (outcome_and_chance (consume_food s).mode d.outcome).2 d.foodRoll hmatch
  refine ⟨?_, ?_, ?_⟩
  · rw [check_end_success]; exact hsucc
  · rw [check_end_ended, hsucc]; rfl
  · rw [check_end_health, hhp2, consume_food_starve s hfood]
    simp only []
    omega

/-- C6 witness: health 5, no food, success phrase, good outcome. -/
theorem c6_success_overrides_starvation_witness :
    (update_game_state (⟨5, 0, 2, false, some Mode.Hard, false⟩ : GameState)
      "you move closer to success" ⟨Outcome.good, roll_half⟩).success = true ∧
    (update_game_state (⟨5, 0, 2, false, some Mode.Hard, false⟩ : GameState)
      "you move closer to success" ⟨Outcome.good, roll_half⟩).ended = true ∧
    (update_game_state (⟨5, 0, 2, false, some Mode.Hard, false⟩ : GameState)
      "you move closer to success" ⟨Outcome.good, roll_half⟩).health ≤ 0 :=
  c6_success_overrides_starvation _ _ _ (by decide) (by decide) (by decide) rfl

/-- C3: the food-consumption step decrements food by exactly 1 and
sets health to `min 100 (health + regen)` when food is available
(regen 10 for Easy and Hard, 0 for Nightmare), and costs 10 health
when food is exhausted.  The hypothesis `health ≤ 100` holds for all
reachable states. -/
theorem c3_consume_food_step (s : GameState) (h : s.health ≤ 100) :
    (0 < s.food →
      (consume_food s).food = s.food - 1 ∧
      (consume_food s).health = min 100 (s.health + food_restore_health s.mode)) ∧
    (s.food = 0 →
      (consume_food s).food = s.food ∧
      (consume_food s).health = s.health - 10) ∧
    food_restore_health (some Mode.Easy) = 10 ∧
    food_restore_health (some Mode.Hard) = 10 ∧
    food_restore_health (some Mode.Nightmare) = 0 := by
  have hr : food_restore_health s.mode = 0 ∨ food_restore_health s.mode = 10 := by
    simp only [food_restore_health]; split_ifs <;> simp
  refine ⟨fun hf => ?_, fun hf => ?_, rfl, rfl, rfl⟩
  · simp only [consume_food]
    rw [if_pos hf]
    split_ifs with h2
    · exact ⟨rfl, rfl⟩
    · refine ⟨rfl, ?_⟩
      simp only [] at h2 ⊢
      omega
  · simp only [consume_food]
    rw [if_neg (by omega)]
    exact ⟨rfl, rfl⟩

/-- C3 witness: the fresh state consumes one food unit. -/
theorem c3_consume_food_step_witness :
    (0 < initial_game_state.food →
      (consume_food initial_game_state).food = initial_game_state.food - 1 ∧
      (consume_food initial_game_state).health =
        min 100 (initial_game_state.health + food_restore_health initial_game_state.mode)) ∧
    (initial_game_state.food = 0 →
      (consume_food initial_game_state).food = initial_game_state.food ∧
      (consume_food initial_game_state).health = initial_game_state.health - 10) ∧
    food_restore_health (some Mode.Easy) = 10 ∧
    food_restore_health (some Mode.Hard) = 10 ∧
    food_restore_health (some Mode.Nightmare) = 0 :=
  c3_consume_food_step initial_game_state (by decide)

theorem apply_outcome_good_no_success_phrase (s : GameState) (text : String)
    (fc roll : ℚ) (hm : containsLower "move closer to success" text = false) :
    (apply_outcome s text Outcome.good fc roll).success = s.success := by
  simp only [apply_outcome, hm]
  split_ifs <;> simp_all

theorem apply_outcome_good_restore (s : GameState) (text : String) (fc roll : ℚ)
    (hm : containsLower "move closer to success" text = false)
    (he : s.mode = some Mode.Easy) (hr : containsLower "restore health" text = true) :
    (apply_outcome s text Outcome.good fc roll).health = min 100 (s.health + 20) := by
  simp only [apply_outcome, hm, he, hr]
  split_ifs <;> simp_all

theorem apply_outcome_good_food_delta (s : GameState) (text : String) (fc roll : ℚ) :
    (apply_outcome s text Outcome.good fc roll).food =
      s.food + (if roll < fc then 3 else 0) := by
  simp only [apply_outcome]
  split_ifs <;> simp_all

/-- C4: in the Good branch the success phrase wins over the Easy-only
restore phrase (at most one of the two fires, and health is untouched
when success fires), and the food-discovery roll adds exactly 3 food
when it succeeds, independently of which effect fired. -/
theorem c4_good_branch (s : GameState) (text : String) (fc roll : ℚ) :
    (containsLower "move closer to success" text = true →
      (apply_outcome s text Outcome.good fc roll).success = true ∧
      (apply_outcome s text Outcome.good fc roll).health = s.health) ∧
    (containsLower "move closer to success" text = false →
      (apply_outcome s text Outcome.good fc roll).success = s.success ∧
      (s.mode = some Mode.Easy → containsLower "restore health" text = true →
        (apply_outcome s text Outcome.good fc roll).health = min 100 (s.health + 20))) ∧
    (apply_outcome s text Outcome.good fc roll).food =
      s.food + (if roll < fc then 3 else 0) :=
  ⟨fun hm => apply_outcome_good_success_phrase s text fc roll hm,
    fun hm => ⟨apply_outcome_good_no_success_phrase s text fc roll hm,
      fun he hr => apply_outcome_good_restore s text fc roll hm he hr⟩,
    apply_outcome_good_food_delta s text fc roll⟩

/-- C4 witness, at a concrete state and success text. -/
theorem c4_good_branch_witness :
    (containsLower "move closer to success" "you move closer to success" = true →
      (apply_outcome initial_game_state "you move closer to success" Outcome.good
        food_chance_easy roll_half).success = true ∧
      (apply_outcome initial_game_state "you move closer to success" Outcome.good
        food_chance_easy roll_half).health = initial_game_state.health) ∧
    (containsLower "move closer to success" "you move closer to success" = false →
      (apply_outcome initial_game_state "you move closer to success" Outcome.good
        food_chance_easy roll_half).success = initial_game_state.success ∧
      (initial_game_state.mode = some Mode.Easy →
        containsLower "restore health" "you move closer to success" = true →
        (apply_outcome initial_game_state "you move closer to success" Outcome.good
          food_chance_easy roll_half).health = min 100 (initial_game_state.health + 20))) ∧
    (apply_outcome initial_game_state "you move closer to success" Outcome.good
      food_chance_easy roll_half).food =
      initial_game_state.food + (if roll_half < food_chance_easy then 3 else 0) :=
  c4_good_branch initial_game_state "you move closer to success" food_chance_easy roll_half

/-! Health bounds used for the C1 invariant. -/

theorem consume_food_health_le (s : GameState) (h : s.health ≤ 100) :
    (consume_food s).health ≤ 100 := by
  simp only [consume_food, food_restore_health]
  split_ifs <;> simp only [] <;> omega

theorem apply_outcome_health_le (s : GameState) (text : String) (o : Outcome)
    (fc roll : ℚ) (h : s.health ≤ 100) :
    (apply_outcome s text o fc roll).health ≤ 100 := by
  simp only [apply_outcome]
  split_ifs <;> first | omega | (simp only []; omega)

theorem update_game_state_health_le (s : GameState) (text : String) (d : Draw)
    (h : s.health ≤ 100) : (update_game_state s text d).health ≤ 100 := by
  simp only [update_game_state]
  rw [check_end_health]
  exact apply_outcome_health_le _ _ _ _ _ (consume_food_health_le s h)

theorem update_game_state_ended_false_pos (s : GameState) (text : String) (d : Draw)
    (h : (update_game_state s text d).ended = false) :
    0 < (update_game_state s text d).health := by
  simp only [update_game_state] at h ⊢
  rw [check_end_ended] at h
  rw [check_end_health]
  simp only [Bool.or_eq_false_iff, decide_eq_false_iff_not, not_le] at h
  exact h.1.2

theorem reachable_health_inv (s : GameState) (h : Reachable s) :
    s.health ≤ 100 ∧ (s.ended = false → 0 < s.health) := by
  induction h with
  | init => exact ⟨by norm_num [initial_game_state], fun _ => by norm_num [initial_game_state]⟩
  | mode_choice s m hr hm ih => simpa [set_mode] using ih
  | turn s text d hr hm he h0 h1 ih =>
      exact ⟨update_game_state_health_le s text d ih.1,
        fun hend => update_game_state_ended_false_pos s text d hend⟩

/-- C1 (amended): on every driver-reachable state, health never
exceeds 100; but health is not floored at 0 — it can become negative,
and does so only on a turn that also sets `ended`. -/
theorem c1_health_bounds_amended (s : GameState) (h : Reachable s) :
    s.health ≤ 100 ∧ (s.health < 0 → s.ended = true) := by
  obtain ⟨h1, h2⟩ := reachable_health_inv s h
  refine ⟨h1, fun hneg => ?_⟩
  cases he : s.ended
  · exact absurd (h2 he) (by omega)
  · rfl

/-- C1 witness: the fresh state satisfies the amended bounds. -/
theorem c1_health_bounds_amended_witness :
    initial_game_state.health ≤ 100 ∧
      (initial_game_state.health < 0 → initial_game_state.ended = true) :=
  c1_health_bounds_amended initial_game_state Reachable.init

theorem reachable_turn_eq (s t : GameState) (text : String) (d : Draw)
    (hr : Reachable s) (hm : s.mode = some Mode.Nightmare) (he : s.ended = false)
    (h0 : 0 ≤ d.foodRoll) (h1 : d.foodRoll < 1)
    (heq : update_game_state s text d = t) : Reachable t :=
  heq ▸ Reachable.turn s text d hr (by simp [hm]) he h0 h1

/-- C1 counterexample: a reachable Nightmare state with health 10 and
no food, on a bad turn whose text matches the lose-health phrase,
drops to health -10, outside [0, 100]: the code clamps health at 100
but never floors it at 0. -/
theorem c1_counterexample :
    Reachable (⟨10, 0, 7, false, some Mode.Nightmare, false⟩ : GameState) ∧
    (update_game_state (⟨10, 0, 7, false, some Mode.Nightmare, false⟩ : GameState)
      "lose health" ⟨Outcome.bad, roll_half⟩).health = -10 := by
  constructor
  · have r1 : Reachable (⟨100, 5, 0, false, some Mode.Nightmare, false⟩ : GameState) :=
      Reachable.mode_choice initial_game_state Mode.Nightmare Reachable.init rfl
    have r2 := reachable_turn_eq _ (⟨90, 4, 1, false, some Mode.Nightmare, false⟩ : GameState)
      "lose health" ⟨Outcome.bad, roll_half⟩ r1 rfl rfl (by decide) (by decide) (by decide)
    have r3 := reachable_turn_eq _ (⟨80, 3, 2, false, some Mode.Nightmare, false⟩ : GameState)
      "lose health" ⟨Outcome.bad, roll_half⟩ r2 rfl rfl (by decide) (by decide) (by decide)
    have r4 := reachable_turn_eq _ (⟨70, 2, 3, false, some Mode.Nightmare, false⟩ : GameState)
      "lose health" ⟨Outcome.bad, roll_half⟩ r3 rfl rfl (by decide) (by decide) (by decide)
    have r5 := reachable_turn_eq _ (⟨60, 1, 4, false, some Mode.Nightmare, false⟩ : GameState)
      "lose health" ⟨Outcome.bad, roll_half⟩ r4 rfl rfl (by decide) (by decide) (by decide)
    have r6 := reachable_turn_eq _ (⟨50, 0, 5, false, some Mode.Nightmare, false⟩ : GameState)
      "lose health" ⟨Outcome.bad, roll_half⟩ r5 rfl rfl (by decide) (by decide) (by decide)
    have r7 := reachable_turn_eq _ (⟨30, 0, 6, false, some Mode.Nightmare, false⟩ : GameState)
      "lose health" ⟨Outcome.bad, roll_half⟩ r6 rfl rfl (by decide) (by decide) (by decide)
    exact reachable_turn_eq _ (⟨10, 0, 7, false, some Mode.Nightmare, false⟩ : GameState)
      "lose health" ⟨Outcome.bad, roll_half⟩ r7 rfl rfl (by decide) (by decide) (by decide)
  · decide

theorem consume_food_nightmare_health (s : GameState)
    (hm : s.mode = some Mode.Nightmare) :
    (consume_food s).health = s.health ∨
    (consume_food s).health = s.health - 10 := by
  simp only [consume_food, food_restore_health, hm]
  split_ifs <;> simp_all

theorem apply_outcome_health_cases (s : GameState) (text : String) (o : Outcome)
    (fc roll : ℚ) (hne : s.mode ≠ some Mode.Easy) :
    (apply_outcome s text o fc roll).health = s.health ∨
    (apply_outcome s text o fc roll).health = s.health - 10 ∨
    (apply_outcome s text o fc roll).health = 0 := by
  simp only [apply_outcome]
  split_ifs <;> simp_all

/-- C10: in Nightmare mode health never increases across a turn: food
consumption yields no regeneration and the +20 restore effect is
Easy-only.  The hypothesis `0 ≤ health` holds on every state the
driver ever feeds to `update_game_state`. -/
theorem c10_nightmare_health_monotone (s : GameState) (text : String) (d : Draw)
    (h0 : 0 ≤ s.health) (hm : s.mode = some Mode.Nightmare) :
    (update_game_state s text d).health ≤ s.health := by
  have hmc : (consume_food s).mode = some Mode.Nightmare := by
    rw [consume_food_mode, hm]
  have h1 := consume_food_nightmare_health s hm
  have h2 := apply_outcome_health_cases (consume_food s) text
    (outcome_and_chance (consume_food s).mode d.outcome).1
    (outcome_and_chance (consume_food s).mode d.outcome).2 d.foodRoll
    (by rw [hmc]; simp)
  simp only [update_game_state]
  rw [check_end_health]
  omega

/-- C10 witness: one Nightmare turn from the starting resources. -/
theorem c10_nightmare_health_monotone_witness :
    (update_game_state (⟨100, 5, 0, false, some Mode.Nightmare, false⟩ : GameState)
      "rest" ⟨Outcome.bad, roll_half⟩).health ≤
      (⟨100, 5, 0, false, some Mode.Nightmare, false⟩ : GameState).health :=
  c10_nightmare_health_monotone _ "rest" _ (by decide) rfl

theorem apply_outcome_bad_fatal (s : GameState) (text : String) (fc roll : ℚ)
    (h1 : containsLower "fatal event" text = true)
    (h2 : containsLower "lose health" text = false)
    (hh : s.health ≤ 10) :
    apply_outcome s text Outcome.bad fc roll = { s with health := 0 } := by
  simp only [apply_outcome, h1, h2]
  split_ifs <;> simp_all

/-- C7 counterexample: the scenario claims health 0 for ANY text with
the fatal-event phrase, but a text that also matches the lose-health
phrase takes the first bad branch instead, and health ends at -15. -/
theorem c7_counterexample :
    containsLower "fatal event" "you lose health in a fatal event" = true ∧
    (update_game_state (⟨5, 0, 0, false, some Mode.Nightmare, false⟩ : GameState)
      "you lose health in a fatal event" ⟨Outcome.bad, roll_half⟩).health = -15 := by
  exact ⟨by decide, by decide⟩

/-- C7 (amended): mode Nightmare, food 0, health 5, outcome Bad, and
a text that contains the fatal-event phrase but not the lose-health
phrase: health becomes 0, the game ends, success stays false. -/
theorem c7_nightmare_fatal (c : Int) (text : String) (roll : ℚ)
    (h1 : containsLower "fatal event" text = true)
    (h2 : containsLower "lose health" text = false) :
    (update_game_state (⟨5, 0, c, false, some Mode.Nightmare, false⟩ : GameState) text
      ⟨Outcome.bad, roll⟩).health = 0 ∧
    (update_game_state (⟨5, 0, c, false, some Mode.Nightmare, false⟩ : GameState) text
      ⟨Outcome.bad, roll⟩).ended = true ∧
    (update_game_state (⟨5, 0, c, false, some Mode.Nightmare, false⟩ : GameState) text
      ⟨Outcome.bad, roll⟩).success = false := by
  have hstarve : consume_food (⟨5, 0, c, false, some Mode.Nightmare, false⟩ : GameState) =
      (⟨-5, 0, c, false, some Mode.Nightmare, false⟩ : GameState) := by
    rw [consume_food_starve _ (by norm_num)]
    norm_num [GameState.mk.injEq]
  have hfatal := apply_outcome_bad_fatal
    (⟨-5, 0, c, false, some Mode.Nightmare, false⟩ : GameState) text
    food_chance_nightmare roll h1 h2 (by norm_num)
  have hoc : outcome_and_chance (some Mode.Nightmare) Outcome.bad =
      (Outcome.bad, food_chance_nightmare) := rfl
  simp only [update_game_state, hstarve]
  norm_num [hoc, hfatal, check_end]

/-- C7 witness for the amended claim, with a concrete fatal text. -/
theorem c7_nightmare_fatal_witness :
    (update_game_state (⟨5, 0, 0, false, some Mode.Nightmare, false⟩ : GameState)
      "a fatal event strikes" ⟨Outcome.bad, roll_half⟩).health = 0 ∧
    (update_game_state (⟨5, 0, 0, false, some Mode.Nightmare, false⟩ : GameState)
      "a fatal event strikes" ⟨Outcome.bad, roll_half⟩).ended = true ∧
    (update_game_state (⟨5, 0, 0, false, some Mode.Nightmare, false⟩ : GameState)
      "a fatal event strikes" ⟨Outcome.bad, roll_half⟩).success = false :=
  c7_nightmare_fatal 0 "a fatal event strikes" roll_half (by decide) (by decide)

/-- C9 counterexample: calling `update_game_state` with the mode still
unset raises no error and is processed as a normal turn: food is
consumed and the choice counter advances. -/
theorem c9_counterexample :
    update_game_state initial_game_state "explore the forest" ⟨Outcome.bad, roll_half⟩ =
      (⟨100, 4, 1, false, none, false⟩ : GameState) := by
  decide

/-- C9 (amended): a turn in the unset-mode state is handled silently,
not loudly: the driver skips it (returning the state unchanged,
with no exception or error value), while a direct
`update_game_state` call simply processes it as a normal turn. -/
theorem c9_unset_mode_silent (s : GameState) (text : String) (d : Draw)
    (h : s.mode = none) :
    main_step s text d = s ∧
    (update_game_state s text d).choices_made = s.choices_made + 1 :=
  ⟨by simp [main_step, h], update_game_state_choices s text d⟩

/-- C9 witness at the fresh state. -/
theorem c9_unset_mode_silent_witness :
    main_step initial_game_state "look around" ⟨Outcome.good, roll_half⟩ =
      initial_game_state ∧
    (update_game_state initial_game_state "look around"
      ⟨Outcome.good, roll_half⟩).choices_made = initial_game_state.choices_made + 1 :=
  c9_unset_mode_silent initial_game_state "look around" ⟨Outcome.good, roll_half⟩ rfl

end CursedForest
